import Mathlib

/-!
Verification of the container-runtime-config compilers of the
machine-config-operator repository: the registry-mirror compiler
(updateRegistriesConfig), the signature-policy compiler (updatePolicyJSON),
the cross-rule-set validator (validateRegistriesConfScopes) and the
payload-safety resolver (getValidBlockedAndAllowedRegistries).

The repository sources at hand contain the test suite of these functions
(TestUpdateRegistriesConfig, TestUpdatePolicyJSON,
TestValidateRegistriesConfScopes, TestGetValidBlockAndAllowedRegistries)
but not the function bodies themselves, so every definition below is
modelled from the specification and cross-checked against every concrete
input/output vector of the test suite; the `example` blocks replay those
vectors verbatim.
-/

namespace MCO

/-- Whether the first character list leads the second: every character of
the first appears at the head of the second, in order. -/
def charsLeadWith : List Char → List Char → Bool
  | [], _ => true
  | _ :: _, [] => false
  | a :: as, b :: bs => a == b && charsLeadWith as bs

/-- Whether the second string starts the first (on character lists, so all
definitions evaluate inside the kernel). -/
def strStartsWith (s pre : String) : Bool := charsLeadWith pre.data s.data

/-- Whether the second string ends the first. -/
def strEndsWith (s suf : String) : Bool := charsLeadWith suf.data.reverse s.data.reverse

/-- Drop the first n characters of a string. -/
def strDrop (s : String) (n : Nat) : String := String.mk (s.data.drop n)

/-- Character length of a string. -/
def strLen (s : String) : Nat := s.data.length

/-- Append two strings. -/
def strAppend (s t : String) : String := String.mk (s.data ++ t.data)

/-- Lexicographic comparison of character lists by code point. -/
def strLtChars : List Char → List Char → Bool
  | [], [] => false
  | [], _ :: _ => true
  | _ :: _, [] => false
  | a :: as, b :: bs => if a = b then strLtChars as bs else decide (a < b)

/-- Lexicographic order on strings, the deterministic emission order of
registry entries. -/
def strLt (s t : String) : Bool := strLtChars s.data t.data

/-- Host part of a registry reference: the portion before the first slash. -/
def hostPart (s : String) : String := String.mk (s.data.takeWhile (fun ch => ch != '/'))

/-- Modelled from the spec: the membership test "matches" of the data-model
section, shared by both compilers and the resolver (its implementation file
is not among the sources; only the tests are).  A candidate matches a
wildcard entry `*.suffix` when the host part of the candidate (the portion
before the first slash) ends with the suffix after the star; an exact entry
matches the candidate itself or any path nested under it.  The restriction
of the wildcard case to the host part is forced by the repository test that
marks the mirror foo.insecure-example.com/bar insecure under the insecure
entry *.insecure-example.com. -/
def matchesEntry (c e : String) : Bool :=
  if strStartsWith e ("*.") then strEndsWith (hostPart c) (strDrop e 1)
  else c == e || strStartsWith c (strAppend e ("/"))

/-- A candidate matches a rule list when it matches some entry of it. -/
def anyMatch (c : String) (l : List String) : Bool :=
  l.any (fun e => matchesEntry c e)

/-- Pull scope of a mirror: digest-only (legacy and current digest-scoped
rule sets) or tag-only (tag-scoped rule sets). -/
inductive PullMode : Type
  | digestOnly
  | tagOnly
deriving DecidableEq, Repr

/-- Exclusivity policy a mirror-rule record may declare for its source. -/
inductive SourcePol : Type
  | neverContact
  | allowContact
  | unset
deriving DecidableEq, Repr

/-- One record of a legacy digest-scoped rule resource
(RepositoryDigestMirrors of an ImageContentSourcePolicy); it carries no
exclusivity field. -/
structure IcspRecord : Type where
  source : String
  mirrors : List String
deriving DecidableEq, Repr

/-- One record of a current digest-scoped or tag-scoped rule resource
(ImageDigestMirrors / ImageTagMirrors), with its mirrorSourcePolicy. -/
structure MirrorSetRecord : Type where
  source : String
  mirrors : List String
  mirrorSourcePolicy : SourcePol
deriving DecidableEq, Repr

/-- A normalized mirror directive: one (source, mirror, pullMode) triple. -/
structure MirrorDirective : Type where
  source : String
  mirror : String
  pullMode : PullMode
deriving DecidableEq, Repr

/-- Concatenation of a list of lists (resource collections flattened in
resource order). -/
def concatAll {α : Type} : List (List α) → List α
  | [] => []
  | l :: ls => l ++ concatAll ls

/-- Directives of one record: one triple per mirror, in mirror order. -/
def recordDirectives (pm : PullMode) (src : String) : List String → List MirrorDirective
  | [] => []
  | m :: ms => { source := src, mirror := m, pullMode := pm } :: recordDirectives pm src ms

/-- Modelled from the spec: the Rule Normalizer.  Legacy and current
digest-scoped records emit digest-only directives, tag-scoped records emit
tag-only directives; resource order, then record order, then mirror order
is preserved, digest-scoped directives before tag-scoped ones. -/
def normalizeDirectives (icsp : List (List IcspRecord))
    (idms itms : List (List MirrorSetRecord)) : List MirrorDirective :=
  concatAll ((concatAll icsp).map (fun r => recordDirectives PullMode.digestOnly r.source r.mirrors))
    ++ concatAll ((concatAll idms).map (fun r => recordDirectives PullMode.digestOnly r.source r.mirrors))
    ++ concatAll ((concatAll itms).map (fun r => recordDirectives PullMode.tagOnly r.source r.mirrors))

/-- All current-form (digest-scoped then tag-scoped) records, flattened. -/
def currentRecords (idms itms : List (List MirrorSetRecord)) : List MirrorSetRecord :=
  concatAll idms ++ concatAll itms

/-- Whether some current-form record declares NeverContact for this source. -/
def neverContactOf (s : String) (idms itms : List (List MirrorSetRecord)) : Bool :=
  (currentRecords idms itms).any
    (fun r => r.source == s && r.mirrorSourcePolicy == SourcePol.neverContact)

/-- A mirror endpoint of a registry entry of the compiled document. -/
structure MirrorEndpoint : Type where
  location : String
  insecure : Bool
  pullFromMirror : PullMode
deriving DecidableEq, Repr

/-- A registry entry of the compiled mirror-configuration document: either
an exact location or a wildcard pattern (the document's Prefix field),
with its insecure/blocked flags and ordered mirror endpoints. -/
structure Registry : Type where
  wildcard : String
  location : String
  insecure : Bool
  blocked : Bool
  mirrors : List MirrorEndpoint
deriving DecidableEq, Repr

/-- The compiled mirror-configuration document. -/
structure V2RegistriesConf : Type where
  unqualifiedSearchRegistries : List String
  registries : List Registry
deriving DecidableEq, Repr

/-- The set key of an entry: its wildcard pattern when present, otherwise
its exact location. -/
def keyOf (r : Registry) : String :=
  if r.wildcard = ("") then r.location else r.wildcard

/-- Build an entry for a scope string, as a wildcard entry when the scope
starts with a star. -/
def mkEntry (k : String) (ins blk : Bool) (ms : List MirrorEndpoint) : Registry :=
  if strStartsWith k ("*.") then
    { wildcard := k, location := "", insecure := ins, blocked := blk, mirrors := ms }
  else
    { wildcard := "", location := k, insecure := ins, blocked := blk, mirrors := ms }

/-- Insert a string into a strictly sorted list, keeping it sorted and
dropping duplicates. -/
def insertSorted (s : String) : List String → List String
  | [] => [s]
  | t :: ts =>
    if s = t then t :: ts
    else if strLt s t then s :: t :: ts
    else t :: insertSorted s ts

/-- Sort a list of strings, dropping duplicates. -/
def sortDedup (l : List String) : List String :=
  l.foldl (fun acc s => insertSorted s acc) []

/-- The distinct sources of the mirror-rule sets, in the deterministic
(lexicographic) emission order of the compiled document. -/
def registrySources (icsp : List (List IcspRecord))
    (idms itms : List (List MirrorSetRecord)) : List String :=
  sortDedup ((normalizeDirectives icsp idms itms).map (fun d => d.source))

/-- Modelled from the spec: the entry emitted for one distinct source by
the Registry-Mirror Compiler: location is the source, the mirrors are the
grouped directives with per-mirror insecure flags, blocked is set when the
source matches the blocked list or a record declares NeverContact for it
(the repository test with MirrorSourcePolicy NeverContactSource and an
empty blocked list shows the entry blocked), insecure when the source
matches the insecure list. -/
def mkSourceEntry (s : String) (dirs : List MirrorDirective)
    (insecureList blockedList : List String) (nc : Bool) : Registry :=
  mkEntry s (anyMatch s insecureList) (anyMatch s blockedList || nc)
    ((dirs.filter (fun d => d.source == s)).map
      (fun d => { location := d.mirror, insecure := anyMatch d.mirror insecureList,
                  pullFromMirror := d.pullMode }))

/-- Whether some entry of the list carries this key. -/
def hasKey (rs : List Registry) (k : String) : Bool :=
  rs.any (fun r => keyOf r == k)

/-- Modelled from the spec: add one blocked-list scope: update the blocked
flag of an existing entry of the same key, otherwise append a fresh entry
with its insecure flag derived from the insecure list. -/
def addBlockedScope (insecureList : List String) (rs : List Registry) (b : String) :
    List Registry :=
  if hasKey rs b then
    rs.map (fun r => if keyOf r == b then { r with blocked := true } else r)
  else
    rs ++ [mkEntry b (anyMatch b insecureList) true []]

/-- Modelled from the spec: add one insecure-list scope: update the
insecure flag of an existing entry of the same key, otherwise append a
fresh entry with its blocked flag derived from the blocked list. -/
def addInsecureScope (blockedList : List String) (rs : List Registry) (i : String) :
    List Registry :=
  if hasKey rs i then
    rs.map (fun r => if keyOf r == i then { r with insecure := true } else r)
  else
    rs ++ [mkEntry i true (anyMatch i blockedList) []]

/-- Fold the blocked list over the entry list. -/
def applyBlocked (insecureList : List String) (rs : List Registry) :
    List String → List Registry
  | [] => rs
  | b :: bs => applyBlocked insecureList (addBlockedScope insecureList rs b) bs

/-- Fold the insecure list over the entry list. -/
def applyInsecure (blockedList : List String) (rs : List Registry) :
    List String → List Registry
  | [] => rs
  | i :: is => applyInsecure blockedList (addInsecureScope blockedList rs i) is

/-- Modelled from the spec: the Registry-Mirror Compiler
updateRegistriesConfig (its implementation file is not among the sources;
only its tests are).  The search-registry list of the template is carried
through unchanged; one entry per distinct source of the normalized mirror
directives is emitted in lexicographic order, then the blocked and
insecure scopes are merged so no two entries share a key.  Parsing and
re-serialization of the TOML document are outside the model. -/
def updateRegistriesConfig (tmpl : V2RegistriesConf)
    (insecureList blockedList : List String) (icsp : List (List IcspRecord))
    (idms itms : List (List MirrorSetRecord)) : V2RegistriesConf :=
  let dirs := normalizeDirectives icsp idms itms
  let entries0 := tmpl.registries ++
    (registrySources icsp idms itms).map
      (fun s => mkSourceEntry s dirs insecureList blockedList (neverContactOf s idms itms))
  let entries1 := applyBlocked insecureList entries0 blockedList
  let entries2 := applyInsecure blockedList entries1 insecureList
  { unqualifiedSearchRegistries := tmpl.unqualifiedSearchRegistries, registries := entries2 }

/-- A signature-policy verdict. -/
inductive Verdict : Type
  | acceptAny
  | reject
deriving DecidableEq, Repr

/-- The signature-policy document: a document-wide default verdict and
per-transport scope maps (docker, atomic, docker-daemon), each a list of
scope/verdict pairs. -/
structure Policy : Type where
  defaultReq : Verdict
  docker : List (String × Verdict)
  atomic : List (String × Verdict)
  dockerDaemon : List (String × Verdict)
deriving DecidableEq, Repr

/-- Reject scopes for a list of registries. -/
def rejectScopes (l : List String) : List (String × Verdict) :=
  l.map (fun b => (b, Verdict.reject))

/-- Accept scopes for a list of registries. -/
def acceptScopes (l : List String) : List (String × Verdict) :=
  l.map (fun a => (a, Verdict.acceptAny))

/-- Registry/repository of an image reference: the part before the digest. -/
def stripDigest (s : String) : String := String.mk (s.data.takeWhile (fun ch => ch != '@'))

/-- Modelled from the spec: the Signature-Policy Compiler updatePolicyJSON
(its implementation file is not among the sources; only its tests are).
With no allowed registries, every blocked registry gets a Reject scope on
the docker and atomic transports (plus an AcceptAny scope for the payload
repository when the payload matches a blocked scope), and the default
verdict is inherited.  With allowed registries and no blocked ones, the
default becomes Reject and every allowed registry gets an AcceptAny scope.
With both lists set (which the repository tests exercise through the
payload-safety resolver's allowed-list addition) the default is inherited,
blocked registries get Reject scopes, allowed ones AcceptAny scopes, and
the call fails when the payload repository matches no allowed entry; the
two tests with a payload-matching allowed list keep the default AcceptAny,
and the test with allowed list [allow.io] and a non-empty blocked list
fails.  The docker-daemon transport is never touched.  JSON serialization
is outside the model. -/
def updatePolicyJSON (tmpl : Policy) (blockedList allowedList : List String)
    (releaseImg : String) : Except String Policy :=
  let payloadRepo := stripDigest releaseImg
  if allowedList = [] then
    let scopes := rejectScopes blockedList ++
      (if anyMatch payloadRepo blockedList then [(payloadRepo, Verdict.acceptAny)] else [])
    Except.ok { tmpl with docker := tmpl.docker ++ scopes, atomic := tmpl.atomic ++ scopes }
  else if blockedList = [] then
    Except.ok
      { tmpl with
          defaultReq := Verdict.reject
          docker := tmpl.docker ++ acceptScopes allowedList
          atomic := tmpl.atomic ++ acceptScopes allowedList }
  else if anyMatch payloadRepo allowedList then
    let scopes := rejectScopes blockedList ++ acceptScopes allowedList
    Except.ok { tmpl with docker := tmpl.docker ++ scopes, atomic := tmpl.atomic ++ scopes }
  else
    Except.error (("the release image repository ") ++ payloadRepo ++
      (" is not in the allowed registries and would be unpullable"))

/-- The errors the cross-rule-set validator can report. -/
inductive ValidationError : Type
  | emptyInsecure
  | emptyBlocked
  | emptyAllowed
  | emptySource
  | emptyMirror
  | selfMirror (source : String)
  | conflictingPolicy (source : String)
deriving DecidableEq, Repr

/-- All sources across the three rule-set collections. -/
def allSources (icsp : List (List IcspRecord)) (idms itms : List (List MirrorSetRecord)) :
    List String :=
  (concatAll icsp).map (fun r => r.source) ++ (currentRecords idms itms).map (fun r => r.source)

/-- All mirrors across the three rule-set collections. -/
def allMirrors (icsp : List (List IcspRecord)) (idms itms : List (List MirrorSetRecord)) :
    List String :=
  concatAll ((concatAll icsp).map (fun r => r.mirrors)) ++
    concatAll ((currentRecords idms itms).map (fun r => r.mirrors))

/-- First record declaring NeverContact while listing its own source among
its mirrors, reported as a self-mirror error. -/
def selfMirrorErr (idms itms : List (List MirrorSetRecord)) : Option ValidationError :=
  ((currentRecords idms itms).find?
    (fun r => r.mirrorSourcePolicy == SourcePol.neverContact && r.mirrors.contains r.source)).map
    (fun r => ValidationError.selfMirror r.source)

/-- Lookup of a declared policy in the accumulator of the conflict scan. -/
def polLookup (acc : List (String × SourcePol)) (s : String) : Option SourcePol :=
  match acc with
  | [] => none
  | (t, p) :: rest => if t = s then some p else polLookup rest s

/-- Modelled from the spec: the two-pass exclusivity-conflict scan: walk
every current-form record, remember the first non-Unset policy declared
for each source, and fail on the first record declaring a different
non-Unset policy for an already-recorded source.  Unset records are
skipped entirely. -/
def checkConflicts (acc : List (String × SourcePol)) :
    List MirrorSetRecord → Option ValidationError
  | [] => none
  | r :: rest =>
    if r.mirrorSourcePolicy = SourcePol.unset then checkConflicts acc rest
    else
      (polLookup acc r.source).elim
        (checkConflicts ((r.source, r.mirrorSourcePolicy) :: acc) rest)
        (fun p =>
          if p = r.mirrorSourcePolicy then checkConflicts acc rest
          else some (ValidationError.conflictingPolicy r.source))

/-- Modelled from the spec: the Conflict Validator
validateRegistriesConfScopes (its implementation file is not among the
sources; only its tests are).  Checks, short-circuiting in order: no empty
insecure entry, no empty blocked entry, no empty allowed entry, no empty
source, no empty mirror, no NeverContact record mirroring its own source,
and no conflicting non-Unset exclusivity declarations for one source. -/
def validateRegistriesConfScopes (insecure blocked allowed : List String)
    (icsp : List (List IcspRecord)) (idms itms : List (List MirrorSetRecord)) :
    Option ValidationError :=
  if insecure.any (fun e => e == "") then some ValidationError.emptyInsecure
  else if blocked.any (fun e => e == "") then some ValidationError.emptyBlocked
  else if allowed.any (fun e => e == "") then some ValidationError.emptyAllowed
  else if (allSources icsp idms itms).any (fun s => s == "") then some ValidationError.emptySource
  else if (allMirrors icsp idms itms).any (fun m => m == "") then some ValidationError.emptyMirror
  else
    match selfMirrorErr idms itms with
    | some e => some e
    | none => checkConflicts [] (currentRecords idms itms)

/-- The quadruple returned by the payload-safety resolver: the effective
blocked list for the mirror document, the effective blocked list for the
policy document, the effective allowed additions, and the error. -/
structure ResolveResult : Type where
  registriesBlocked : List String
  policyBlocked : List String
  allowed : List String
  err : Option String
deriving DecidableEq, Repr

/-- Where a directive sends the payload repository: the mirror followed by
the remainder of the payload repository after the directive's source. -/
def payloadMirror (d : MirrorDirective) (payloadRepo : String) : String :=
  strAppend d.mirror (strDrop payloadRepo (strLen d.source))

/-- Modelled from the spec: the Payload-Safety Resolver
getValidBlockedAndAllowedRegistries (its implementation file is not among
the sources; only its tests are).  If the payload repository matches no
blocked entry the blocked list is returned unchanged for both documents.
Otherwise the first mirror directive whose source matches the payload
repository is taken: with none, or with the payload's mirrored location
itself matching the blocked list (the repository tests block both the
mirror of the payload and a parent of that mirror), the call fails and
the blocked entries matching the payload are dropped from the returned
lists; otherwise the blocked list is returned unchanged and the payload
repository is the single allowed-list addition. -/
def getValidBlockedAndAllowedRegistries (releaseImg : String) (blockedList : List String)
    (icsp : List (List IcspRecord)) (idms itms : List (List MirrorSetRecord)) :
    ResolveResult :=
  let payloadRepo := stripDigest releaseImg
  let dirs := normalizeDirectives icsp idms itms
  if anyMatch payloadRepo blockedList then
    match dirs.find? (fun d => matchesEntry payloadRepo d.source) with
    | none =>
      let kept := blockedList.filter (fun b => !(matchesEntry payloadRepo b))
      { registriesBlocked := kept, policyBlocked := kept, allowed := [],
        err := some (("release image ") ++ payloadRepo ++ (" is unconditionally blocked")) }
    | some d =>
      if anyMatch (payloadMirror d payloadRepo) blockedList then
        let kept := blockedList.filter (fun b => !(matchesEntry payloadRepo b))
        { registriesBlocked := kept, policyBlocked := kept, allowed := [],
          err := some (("the mirror of release image ") ++ payloadRepo ++ (" is blocked")) }
      else
        { registriesBlocked := blockedList, policyBlocked := blockedList,
          allowed := [payloadRepo], err := none }
  else
    { registriesBlocked := blockedList, policyBlocked := blockedList, allowed := [],
      err := none }

/-- Whether a compilation call failed. -/
def isErr {E A : Type} : Except E A → Bool
  | Except.error _ => true
  | Except.ok _ => false

/-- The keys of a compiled entry list are pairwise distinct. -/
def keysNodup (rs : List Registry) : Prop := (rs.map keyOf).Nodup

/-- The literal reading of the spec's membership test, with the wildcard
suffix checked against the whole candidate string. -/
def MatchesLiteral (c e : String) : Prop :=
  (strStartsWith e ("*.") = true ∧ strEndsWith c (strDrop e 1) = true) ∨
  (strStartsWith e ("*.") = false ∧ (c = e ∨ strStartsWith c (strAppend e ("/")) = true))

/-- The amended reading of the membership test: the wildcard suffix is
checked against the host part of the candidate. -/
def MatchesHostAware (c e : String) : Prop :=
  (strStartsWith e ("*.") = true ∧ strEndsWith (hostPart c) (strDrop e 1) = true) ∨
  (strStartsWith e ("*.") = false ∧ (c = e ∨ strStartsWith c (strAppend e ("/")) = true))

/-- No two current-form records declare different non-Unset exclusivities
for the same source. -/
def ConsistentPolicies (l : List MirrorSetRecord) : Prop :=
  ∀ r1 ∈ l, ∀ r2 ∈ l, r1.source = r2.source →
    r1.mirrorSourcePolicy ≠ SourcePol.unset → r2.mirrorSourcePolicy ≠ SourcePol.unset →
    r1.mirrorSourcePolicy = r2.mirrorSourcePolicy

/-- Compatibility of the conflict-scan accumulator with a record list: a
recorded policy for a source agrees with every non-Unset declaration for
that source in the list. -/
def AccCompat (acc : List (String × SourcePol)) (l : List MirrorSetRecord) : Prop :=
  ∀ r ∈ l, r.mirrorSourcePolicy ≠ SourcePol.unset →
    ∀ p, polLookup acc r.source = some p → p = r.mirrorSourcePolicy

/-- The six structural checks of the validator that precede the
exclusivity-conflict scan, as one flag. -/
def structuralChecksPass (insecure blocked allowed : List String)
    (icsp : List (List IcspRecord)) (idms itms : List (List MirrorSetRecord)) : Bool :=
  !(insecure.any fun e => e == "") && !(blocked.any fun e => e == "") &&
    !(allowed.any fun e => e == "") && !((allSources icsp idms itms).any fun s => s == "") &&
    !((allMirrors icsp idms itms).any fun m => m == "") && !(selfMirrorErr idms itms).isSome

/-! ## Test fixtures

The two base template documents of the test suite: the registries template
carries only the unqualified search registries, the policy template accepts
anything by default and carries one docker-daemon scope. -/

/-- The base mirror-configuration template of the test suite. -/
def templateConfig : V2RegistriesConf :=
  { unqualifiedSearchRegistries := ["registry.access.redhat.com", "docker.io"], registries := [] }

/-- The base signature-policy template of the test suite. -/
def basePolicy : Policy :=
  { defaultReq := Verdict.acceptAny, docker := [], atomic := [],
    dockerDaemon := [("", Verdict.acceptAny)] }

/-! ## Replay of the repository test vectors

Each example replays one case of the repository test suite verbatim:
the model reproduces every expected document of
TestUpdateRegistriesConfig, TestUpdatePolicyJSON,
TestValidateRegistriesConfScopes and
TestGetValidBlockAndAllowedRegistries, including entry order. -/

example :
    updateRegistriesConfig templateConfig [] [] [] [] [] = templateConfig := by
  decide

example :
    updateRegistriesConfig templateConfig
      ["registry.access.redhat.com", "insecure.com", "common.com"]
      ["blocked.com", "common.com", "docker.io"] [] [] [] =
    { unqualifiedSearchRegistries := ["registry.access.redhat.com", "docker.io"],
      registries :=
        [ { wildcard := "", location := "blocked.com", insecure := false, blocked := true,
            mirrors := [] },
          { wildcard := "", location := "common.com", insecure := true, blocked := true,
            mirrors := [] },
          { wildcard := "", location := "docker.io", insecure := false, blocked := true,
            mirrors := [] },
          { wildcard := "", location := "registry.access.redhat.com", insecure := true,
            blocked := false, mirrors := [] },
          { wildcard := "", location := "insecure.com", insecure := true, blocked := false,
            mirrors := [] } ] } := by
  decide

example :
    updateRegistriesConfig templateConfig
      ["insecure.com", "*.insecure-example.com", "*.insecure.blocked-example.com"]
      ["blocked.com", "*.blocked.insecure-example.com", "*.blocked-example.com"]
      [[ { source := "insecure.com/ns-i1", mirrors := ["blocked.com/ns-b1", "other.com/ns-o1"] },
         { source := "blocked.com/ns-b/ns2-b", mirrors := ["other.com/ns-o2", "insecure.com/ns-i2"] },
         { source := "other.com/ns-o3",
           mirrors := ["insecure.com/ns-i2", "blocked.com/ns-b/ns3-b", "foo.insecure-example.com/bar"] } ]]
      [] [] =
    { unqualifiedSearchRegistries := ["registry.access.redhat.com", "docker.io"],
      registries :=
        [ { wildcard := "", location := "blocked.com/ns-b/ns2-b", insecure := false, blocked := true,
            mirrors :=
              [ { location := "other.com/ns-o2", insecure := false,
                  pullFromMirror := PullMode.digestOnly },
                { location := "insecure.com/ns-i2", insecure := true,
                  pullFromMirror := PullMode.digestOnly } ] },
          { wildcard := "", location := "insecure.com/ns-i1", insecure := true, blocked := false,
            mirrors :=
              [ { location := "blocked.com/ns-b1", insecure := false,
                  pullFromMirror := PullMode.digestOnly },
                { location := "other.com/ns-o1", insecure := false,
                  pullFromMirror := PullMode.digestOnly } ] },
          { wildcard := "", location := "other.com/ns-o3", insecure := false, blocked := false,
            mirrors :=
              [ { location := "insecure.com/ns-i2", insecure := true,
                  pullFromMirror := PullMode.digestOnly },
                { location := "blocked.com/ns-b/ns3-b", insecure := false,
                  pullFromMirror := PullMode.digestOnly },
                { location := "foo.insecure-example.com/bar", insecure := true,
                  pullFromMirror := PullMode.digestOnly } ] },
          { wildcard := "", location := "blocked.com", insecure := false, blocked := true,
            mirrors := [] },
          { wildcard := "*.blocked.insecure-example.com", location := "", insecure := true,
            blocked := true, mirrors := [] },
          { wildcard := "*.blocked-example.com", location := "", insecure := false, blocked := true,
            mirrors := [] },
          { wildcard := "", location := "insecure.com", insecure := true, blocked := false,
            mirrors := [] },
          { wildcard := "*.insecure-example.com", location := "", insecure := true, blocked := false,
            mirrors := [] },
          { wildcard := "*.insecure.blocked-example.com", location := "", insecure := true,
            blocked := true, mirrors := [] } ] } := by
  decide

example :
    updateRegistriesConfig templateConfig [] []
      [[ { source := "other.com/ns-o3", mirrors := ["mirror-other-1.com/ns1", "mirror-other-2.com/ns1"] } ]]
      [[ { source := "registry-a.com/ns-a", mirrors := ["mirror-a-1.com/ns-a", "mirror-a-2.com/ns-a"],
           mirrorSourcePolicy := SourcePol.neverContact },
         { source := "registry-b/ns-b/ns1-b", mirrors := ["mirror-b-1.com/ns-b", "mirror-b-2.com/ns-b"],
           mirrorSourcePolicy := SourcePol.unset } ]]
      [[ { source := "registry-b/ns-b/ns1-b", mirrors := ["mirror-tag-b-1.com/ns-b", "mirror-tag-b-2.com/ns-b"],
           mirrorSourcePolicy := SourcePol.unset },
         { source := "registry-c/ns-c/ns1-c", mirrors := ["mirror-tag-c-1.com/ns-c", "mirror-tag-c-2.com/ns-c"],
           mirrorSourcePolicy := SourcePol.neverContact } ]] =
    { unqualifiedSearchRegistries := ["registry.access.redhat.com", "docker.io"],
      registries :=
        [ { wildcard := "", location := "other.com/ns-o3", insecure := false, blocked := false,
            mirrors :=
              [ { location := "mirror-other-1.com/ns1", insecure := false,
                  pullFromMirror := PullMode.digestOnly },
                { location := "mirror-other-2.com/ns1", insecure := false,
                  pullFromMirror := PullMode.digestOnly } ] },
          { wildcard := "", location := "registry-a.com/ns-a", insecure := false, blocked := true,
            mirrors :=
              [ { location := "mirror-a-1.com/ns-a", insecure := false,
                  pullFromMirror := PullMode.digestOnly },
                { location := "mirror-a-2.com/ns-a", insecure := false,
                  pullFromMirror := PullMode.digestOnly } ] },
          { wildcard := "", location := "registry-b/ns-b/ns1-b", insecure := false, blocked := false,
            mirrors :=
              [ { location := "mirror-b-1.com/ns-b", insecure := false,
                  pullFromMirror := PullMode.digestOnly },
                { location := "mirror-b-2.com/ns-b", insecure := false,
                  pullFromMirror := PullMode.digestOnly },
                { location := "mirror-tag-b-1.com/ns-b", insecure := false,
                  pullFromMirror := PullMode.tagOnly },
                { location := "mirror-tag-b-2.com/ns-b", insecure := false,
                  pullFromMirror := PullMode.tagOnly } ] },
          { wildcard := "", location := "registry-c/ns-c/ns1-c", insecure := false, blocked := true,
            mirrors :=
              [ { location := "mirror-tag-c-1.com/ns-c", insecure := false,
                  pullFromMirror := PullMode.tagOnly },
                { location := "mirror-tag-c-2.com/ns-c", insecure := false,
                  pullFromMirror := PullMode.tagOnly } ] } ] } := by
  decide

example : (updatePolicyJSON basePolicy [] [] ("release-reg.io/image/release")).toOption =
    some basePolicy := by
  decide

example :
    (updatePolicyJSON basePolicy [] ["allow.io", "*.allowed-example.com"]
      ("release-reg.io/image/release")).toOption =
    some
      { defaultReq := Verdict.reject,
        docker := [("allow.io", Verdict.acceptAny), ("*.allowed-example.com", Verdict.acceptAny)],
        atomic := [("allow.io", Verdict.acceptAny), ("*.allowed-example.com", Verdict.acceptAny)],
        dockerDaemon := [("", Verdict.acceptAny)] } := by
  decide

example :
    (updatePolicyJSON basePolicy ["block.com", "*.blocked-example.com"] []
      ("release-reg.io/image/release")).toOption =
    some
      { defaultReq := Verdict.acceptAny,
        docker := [("block.com", Verdict.reject), ("*.blocked-example.com", Verdict.reject)],
        atomic := [("block.com", Verdict.reject), ("*.blocked-example.com", Verdict.reject)],
        dockerDaemon := [("", Verdict.acceptAny)] } := by
  decide

example :
    (updatePolicyJSON basePolicy ["block.com"] ["release-reg.io/image/release"]
      ("release-reg.io/image/release")).toOption =
    some
      { defaultReq := Verdict.acceptAny,
        docker := [("block.com", Verdict.reject), ("release-reg.io/image/release", Verdict.acceptAny)],
        atomic := [("block.com", Verdict.reject), ("release-reg.io/image/release", Verdict.acceptAny)],
        dockerDaemon := [("", Verdict.acceptAny)] } := by
  decide

example :
    (updatePolicyJSON basePolicy ["block.com", "release-reg.io"] ["release-reg.io/image/release"]
      ("release-reg.io/image/release")).toOption =
    some
      { defaultReq := Verdict.acceptAny,
        docker :=
          [ ("block.com", Verdict.reject), ("release-reg.io", Verdict.reject),
            ("release-reg.io/image/release", Verdict.acceptAny) ],
        atomic :=
          [ ("block.com", Verdict.reject), ("release-reg.io", Verdict.reject),
            ("release-reg.io/image/release", Verdict.acceptAny) ],
        dockerDaemon := [("", Verdict.acceptAny)] } := by
  decide

example :
    (updatePolicyJSON basePolicy ["block.com", "another-block.io"] ["allow.io"]
      ("release-reg.io/image/release")).toOption = none := by
  decide

example :
    validateRegistriesConfScopes [""] ["*.block.com"] ["*.allowed.com"] [[]] [] [] =
    some ValidationError.emptyInsecure := by
  decide

example :
    validateRegistriesConfScopes ["*.insecure.com"] [""] ["*.allowed.com"] [[]] [] [] =
    some ValidationError.emptyBlocked := by
  decide

example :
    validateRegistriesConfScopes ["*.insecure.com"] ["*.block.com"] [""] [[]] [] [] =
    some ValidationError.emptyAllowed := by
  decide

example :
    validateRegistriesConfScopes ["*.insecure.com"] ["*.block.com"] ["*.allowed.com"]
      [[ { source := "", mirrors := ["blocked.com/ns-b1", "other.com/ns-o1"] } ]] [] [] =
    some ValidationError.emptySource := by
  decide

example :
    validateRegistriesConfScopes ["*.insecure.com"] ["*.block.com"] ["*.allowed.com"]
      [[ { source := "insecure.com/ns-i1", mirrors := ["", "other.com/ns-o1"] } ]] [] [] =
    some ValidationError.emptyMirror := by
  decide

example :
    validateRegistriesConfScopes ["*.insecure.com"] ["*.block.com"] ["*.allowed.com"]
      [[ { source := "insecure.com/ns-i1", mirrors := ["other.com/ns-o1"] } ]] [] [] = none := by
  decide

example :
    validateRegistriesConfScopes ["*.insecure.com"] ["*.block.com"] ["*.allowed.com"] []
      [[ { source := "registry-a.com/ns-a",
           mirrors := ["registry-a.com/ns-a", "mirror-a-1.com/ns-a", "mirror-a-2.com/ns-a"],
           mirrorSourcePolicy := SourcePol.neverContact },
         { source := "registry-b/ns-b/ns1-b", mirrors := ["mirror-b-1.com/ns-b", "mirror-b-2.com/ns-b"],
           mirrorSourcePolicy := SourcePol.unset } ]] [] =
    some (ValidationError.selfMirror ("registry-a.com/ns-a")) := by
  decide

example :
    validateRegistriesConfScopes ["*.insecure.com"] ["*.block.com"] ["*.allowed.com"] []
      [[ { source := "registry-a.com/ns-a", mirrors := ["mirror-a-1.com/ns-a", "mirror-a-2.com/ns-a"],
           mirrorSourcePolicy := SourcePol.neverContact },
         { source := "registry-b/ns-b/ns1-b", mirrors := ["mirror-b-1.com/ns-b", "mirror-b-2.com/ns-b"],
           mirrorSourcePolicy := SourcePol.unset } ],
       [ { source := "registry-a.com/ns-a", mirrors := ["mirror-a-1.com/ns-a", "mirror-a-2.com/ns-a"],
           mirrorSourcePolicy := SourcePol.allowContact },
         { source := "registry-b/ns-b/ns1-b", mirrors := ["mirror-b-1.com/ns-b", "mirror-b-2.com/ns-b"],
           mirrorSourcePolicy := SourcePol.unset } ]] [] =
    some (ValidationError.conflictingPolicy ("registry-a.com/ns-a")) := by
  decide

example :
    validateRegistriesConfScopes ["*.insecure.com"] ["*.block.com"] ["*.allowed.com"] []
      [[ { source := "registry-a.com/ns-a", mirrors := ["mirror-a-1.com/ns-a", "mirror-a-2.com/ns-a"],
           mirrorSourcePolicy := SourcePol.neverContact },
         { source := "registry-b/ns-b/ns1-b", mirrors := ["mirror-b-1.com/ns-b", "mirror-b-2.com/ns-b"],
           mirrorSourcePolicy := SourcePol.unset } ],
       [ { source := "registry-a.com/ns-a", mirrors := ["mirror-a-1.com/ns-a", "mirror-a-2.com/ns-a"],
           mirrorSourcePolicy := SourcePol.unset },
         { source := "registry-b/ns-b/ns1-b", mirrors := ["mirror-b-1.com/ns-b", "mirror-b-2.com/ns-b"],
           mirrorSourcePolicy := SourcePol.unset } ]]
      [[ { source := "registry-c.com/ns-c", mirrors := ["mirror-c-1.com/ns-c", "mirror-c-2.com/ns-c"],
           mirrorSourcePolicy := SourcePol.neverContact },
         { source := "registry-d/ns-d/ns1-d", mirrors := ["mirror-d-1.com/ns-d", "mirror-d-2.com/ns-d"],
           mirrorSourcePolicy := SourcePol.unset } ],
       [ { source := "registry-c.com/ns-c", mirrors := ["mirror-c-1.com/ns-c"],
           mirrorSourcePolicy := SourcePol.allowContact },
         { source := "registry-d/ns-d/ns1-d", mirrors := ["mirror-d-1.com/ns-d", "mirror-d-2.com/ns-d"],
           mirrorSourcePolicy := SourcePol.unset } ]] =
    some (ValidationError.conflictingPolicy ("registry-c.com/ns-c")) := by
  decide

example :
    validateRegistriesConfScopes ["*.insecure.com"] ["*.block.com"] ["*.allowed.com"] []
      [[ { source := "registry-a.com/ns-a", mirrors := ["mirror-a-1.com/ns-a", "mirror-a-2.com/ns-a"],
           mirrorSourcePolicy := SourcePol.neverContact },
         { source := "registry-b/ns-b/ns1-b", mirrors := ["mirror-b-1.com/ns-b", "mirror-b-2.com/ns-b"],
           mirrorSourcePolicy := SourcePol.unset } ]]
      [[ { source := "registry-b/ns-b/ns1-b", mirrors := ["mirror-c-1.com/ns-c", "mirror-c-2.com/ns-c"],
           mirrorSourcePolicy := SourcePol.neverContact },
         { source := "registry-a.com/ns-a", mirrors := ["mirror-d-1.com/ns-d", "mirror-d-2.com/ns-d"],
           mirrorSourcePolicy := SourcePol.allowContact } ]] =
    some (ValidationError.conflictingPolicy ("registry-a.com/ns-a")) := by
  decide

example :
    validateRegistriesConfScopes ["*.insecure.com"] ["*.block.com"] ["*.allowed.com"] []
      [[ { source := "registry-a.com/ns-a", mirrors := ["mirror-a-1.com/ns-a", "mirror-a-2.com/ns-a"],
           mirrorSourcePolicy := SourcePol.neverContact },
         { source := "registry-b/ns-b/ns1-b", mirrors := ["mirror-b-1.com/ns-b", "mirror-b-2.com/ns-b"],
           mirrorSourcePolicy := SourcePol.unset } ]]
      [[ { source := "registry-a.com/ns-a", mirrors := ["mirror-d-1.com/ns-d", "mirror-d-2.com/ns-d"],
           mirrorSourcePolicy := SourcePol.unset },
         { source := "registry-b/ns-b/ns1-b", mirrors := ["mirror-c-1.com/ns-c", "mirror-c-2.com/ns-c"],
           mirrorSourcePolicy := SourcePol.neverContact } ]] = none := by
  decide

example :
    getValidBlockedAndAllowedRegistries
      ("payload-reg.io/release-image@sha256:4207ba569ff014931f1b5d125fe3751936a768e119546683c899eb09f3cdceb0")
      ["block.io", "block-2.io"] [] [] [] =
    { registriesBlocked := ["block.io", "block-2.io"], policyBlocked := ["block.io", "block-2.io"],
      allowed := [], err := none } := by
  decide

example :
    getValidBlockedAndAllowedRegistries
      ("payload-reg.io/release-image@sha256:4207ba569ff014931f1b5d125fe3751936a768e119546683c899eb09f3cdceb0")
      ["block.io", "block-2.io"]
      [[ { source := "src.io/payload", mirrors := ["mirror-1.io/payload", "mirror-2.io/payload"] } ]]
      [] [] =
    { registriesBlocked := ["block.io", "block-2.io"], policyBlocked := ["block.io", "block-2.io"],
      allowed := [], err := none } := by
  decide

example :
    (getValidBlockedAndAllowedRegistries
      ("payload-reg.io/release-image@sha256:4207ba569ff014931f1b5d125fe3751936a768e119546683c899eb09f3cdceb0")
      ["block.io", "payload-reg.io", "block-2.io"]
      [[ { source := "src.io/payload", mirrors := ["mirror-1.io/payload", "mirror-2.io/payload"] } ]]
      [] []).registriesBlocked = ["block.io", "block-2.io"] ∧
    (getValidBlockedAndAllowedRegistries
      ("payload-reg.io/release-image@sha256:4207ba569ff014931f1b5d125fe3751936a768e119546683c899eb09f3cdceb0")
      ["block.io", "payload-reg.io", "block-2.io"]
      [[ { source := "src.io/payload", mirrors := ["mirror-1.io/payload", "mirror-2.io/payload"] } ]]
      [] []).err.isSome = true := by
  constructor
  · decide
  · decide

example :
    getValidBlockedAndAllowedRegistries
      ("payload-reg.io/release-image@sha256:4207ba569ff014931f1b5d125fe3751936a768e119546683c899eb09f3cdceb0")
      ["block.io", "payload-reg.io", "block-2.io"]
      [[ { source := "payload-reg.io/release-image", mirrors := ["mirror-1.io/payload", "mirror-2.io/payload"] } ]]
      [] [] =
    { registriesBlocked := ["block.io", "payload-reg.io", "block-2.io"],
      policyBlocked := ["block.io", "payload-reg.io", "block-2.io"],
      allowed := ["payload-reg.io/release-image"], err := none } := by
  decide

example :
    (getValidBlockedAndAllowedRegistries
      ("quay.io/openshift-release-dev@sha256:4207ba569ff014931f1b5d125fe3751936a768e119546683c899eb09f3cdceb0")
      ["quay.io", "block.io/openshift-release-dev"]
      [[ { source := "quay.io", mirrors := ["block.io"] } ]] [] []).registriesBlocked =
      ["block.io/openshift-release-dev"] ∧
    (getValidBlockedAndAllowedRegistries
      ("quay.io/openshift-release-dev@sha256:4207ba569ff014931f1b5d125fe3751936a768e119546683c899eb09f3cdceb0")
      ["quay.io", "block.io/openshift-release-dev"]
      [[ { source := "quay.io", mirrors := ["block.io"] } ]] [] []).err.isSome = true := by
  constructor
  · decide
  · decide

example :
    (getValidBlockedAndAllowedRegistries
      ("quay.io/openshift-release-dev@sha256:4207ba569ff014931f1b5d125fe3751936a768e119546683c899eb09f3cdceb0")
      ["quay.io", "block.io"]
      [[ { source := "quay.io/openshift-release-dev", mirrors := ["block.io/openshift-release-dev"] } ]]
      [] []).registriesBlocked = ["block.io"] ∧
    (getValidBlockedAndAllowedRegistries
      ("quay.io/openshift-release-dev@sha256:4207ba569ff014931f1b5d125fe3751936a768e119546683c899eb09f3cdceb0")
      ["quay.io", "block.io"]
      [[ { source := "quay.io/openshift-release-dev", mirrors := ["block.io/openshift-release-dev"] } ]]
      [] []).err.isSome = true := by
  constructor
  · decide
  · decide

/-! ## Lemmas about the emission order and entry keys -/

lemma strLtChars_irrefl : ∀ l : List Char, strLtChars l l = false := by
  intro l
  induction l with
  | nil => rfl
  | cons a as ih => simp [strLtChars, ih]

lemma strLt_irrefl (s : String) : strLt s s = false := strLtChars_irrefl s.data

lemma strLtChars_conn : ∀ {l m : List Char}, l ≠ m →
    strLtChars l m = true ∨ strLtChars m l = true := by
  intro l
  induction l with
  | nil =>
    intro m h
    cases m with
    | nil => exact absurd rfl h
    | cons b bs => left; rfl
  | cons a as ih =>
    intro m h
    cases m with
    | nil => right; rfl
    | cons b bs =>
      by_cases hab : a = b
      · subst hab
        have hne : as ≠ bs := fun he => h (by rw [he])
        rcases ih hne with h1 | h1
        · left; simp [strLtChars, h1]
        · right; simp [strLtChars, h1]
      · rcases lt_or_gt_of_ne (fun he => hab he) with h1 | h1
        · left; simp [strLtChars, hab, h1]
        · right; simp [strLtChars, Ne.symm hab, h1]

lemma strLt_conn {s t : String} (h : s ≠ t) : strLt s t = true ∨ strLt t s = true := by
  apply strLtChars_conn
  intro hd
  apply h
  cases s with
  | mk ds =>
    cases t with
    | mk dt => exact congrArg String.mk hd

lemma strLtChars_trans : ∀ {l m n : List Char}, strLtChars l m = true →
    strLtChars m n = true → strLtChars l n = true := by
  intro l
  induction l with
  | nil =>
    intro m n h1 h2
    cases m with
    | nil => exact absurd h1 (by simp [strLtChars])
    | cons b bs =>
      cases n with
      | nil => exact absurd h2 (by simp [strLtChars])
      | cons c cs => rfl
  | cons a as ih =>
    intro m n h1 h2
    cases m with
    | nil => exact absurd h1 (by simp [strLtChars])
    | cons b bs =>
      cases n with
      | nil => exact absurd h2 (by simp [strLtChars])
      | cons c cs =>
        by_cases hab : a = b
        · subst hab
          by_cases hbc : a = c
          · subst hbc
            simp only [strLtChars, if_pos rfl] at h1 h2 ⊢
            exact ih h1 h2
          · simp only [strLtChars, if_pos rfl] at h1
            simp only [strLtChars, if_neg hbc] at h2 ⊢
            exact h2
        · by_cases hbc : b = c
          · subst hbc
            simp only [strLtChars, if_neg hab] at h1 ⊢
            exact h1
          · simp only [strLtChars, if_neg hab, decide_eq_true_eq] at h1
            simp only [strLtChars, if_neg hbc, decide_eq_true_eq] at h2
            have hac : a < c := lt_trans h1 h2
            have hne : a ≠ c := ne_of_lt hac
            simp only [strLtChars, if_neg hne, decide_eq_true_eq]
            exact hac

lemma strLt_trans {a b c : String} (h1 : strLt a b = true) (h2 : strLt b c = true) :
    strLt a c = true :=
  strLtChars_trans h1 h2

lemma insertSorted_cons (s t : String) (ts : List String) :
    insertSorted s (t :: ts) =
      if s = t then t :: ts
      else if strLt s t then s :: t :: ts
      else t :: insertSorted s ts := rfl

lemma mem_insertSorted {x s : String} : ∀ {l : List String},
    x ∈ insertSorted s l ↔ x = s ∨ x ∈ l := by
  intro l
  induction l with
  | nil => simp [insertSorted]
  | cons t ts ih =>
    rw [insertSorted_cons]
    by_cases hst : s = t
    · rw [if_pos hst]
      subst hst
      simp only [List.mem_cons]
      tauto
    · rw [if_neg hst]
      by_cases hlt : strLt s t = true
      · rw [if_pos hlt]
        simp only [List.mem_cons]
      · rw [if_neg hlt]
        simp only [List.mem_cons, ih]
        tauto

lemma pairwise_insertSorted {s : String} : ∀ {l : List String},
    l.Pairwise (fun a b => strLt a b = true) →
    (insertSorted s l).Pairwise (fun a b => strLt a b = true) := by
  intro l
  induction l with
  | nil =>
    intro _
    simp [insertSorted]
  | cons t ts ih =>
    intro h
    rw [List.pairwise_cons] at h
    obtain ⟨ht, hts⟩ := h
    rw [insertSorted_cons]
    by_cases hst : s = t
    · rw [if_pos hst]
      exact List.pairwise_cons.mpr ⟨ht, hts⟩
    · rw [if_neg hst]
      by_cases hlt : strLt s t = true
      · rw [if_pos hlt]
        apply List.pairwise_cons.mpr
        constructor
        · intro x hx
          rcases List.mem_cons.mp hx with h1 | h1
          · subst h1; exact hlt
          · exact strLt_trans hlt (ht x h1)
        · exact List.pairwise_cons.mpr ⟨ht, hts⟩
      · rw [if_neg hlt]
        apply List.pairwise_cons.mpr
        constructor
        · intro x hx
          rcases mem_insertSorted.mp hx with h1 | h1
          · subst h1
            rcases strLt_conn hst with h2 | h2
            · exact absurd h2 hlt
            · exact h2
          · exact ht x h1
        · exact ih hts

lemma pairwise_foldl_insert : ∀ (l acc : List String),
    acc.Pairwise (fun a b => strLt a b = true) →
    (l.foldl (fun acc s => insertSorted s acc) acc).Pairwise (fun a b => strLt a b = true) := by
  intro l
  induction l with
  | nil => intro acc h; exact h
  | cons s ss ih => intro acc h; exact ih _ (pairwise_insertSorted h)

lemma pairwise_sortDedup (l : List String) :
    (sortDedup l).Pairwise (fun a b => strLt a b = true) :=
  pairwise_foldl_insert l [] List.Pairwise.nil

lemma nodup_sortDedup (l : List String) : (sortDedup l).Nodup := by
  apply List.Pairwise.imp ?_ (pairwise_sortDedup l)
  intro a b hab he
  subst he
  rw [strLt_irrefl] at hab
  exact Bool.false_ne_true hab

lemma mem_foldl_insert : ∀ (l acc : List String) (x : String),
    x ∈ l.foldl (fun acc s => insertSorted s acc) acc ↔ x ∈ acc ∨ x ∈ l := by
  intro l
  induction l with
  | nil => intro acc x; simp
  | cons s ss ih =>
    intro acc x
    simp only [List.foldl_cons]
    rw [ih, mem_insertSorted, List.mem_cons]
    tauto

lemma mem_sortDedup {x : String} {l : List String} : x ∈ sortDedup l ↔ x ∈ l := by
  unfold sortDedup
  rw [mem_foldl_insert]
  simp

lemma strStartsWith_ne_empty {k : String} (h : strStartsWith k ("*.") = true) : ¬ k = ("") := by
  intro he
  subst he
  exact absurd h (by decide)

lemma keyOf_mkEntry (k : String) (ins blk : Bool) (ms : List MirrorEndpoint) :
    keyOf (mkEntry k ins blk ms) = k := by
  by_cases hw : strStartsWith k ("*.") = true
  · simp [mkEntry, hw, keyOf, strStartsWith_ne_empty hw]
  · simp [mkEntry, hw, keyOf]

lemma keyOf_updB (b : String) (r : Registry) :
    keyOf (if keyOf r == b then { r with blocked := true } else r) = keyOf r := by
  split <;> rfl

lemma keyOf_updI (i : String) (r : Registry) :
    keyOf (if keyOf r == i then { r with insecure := true } else r) = keyOf r := by
  split <;> rfl

lemma map_keyOf_map_update (f : Registry → Registry) (hf : ∀ r, keyOf (f r) = keyOf r) :
    ∀ rs : List Registry, (rs.map f).map keyOf = rs.map keyOf := by
  intro rs
  induction rs with
  | nil => rfl
  | cons r rs ih => simp [hf, ih]

lemma hasKey_false_forall {rs : List Registry} {k : String} (h : hasKey rs k = false) :
    ∀ r ∈ rs, ¬ keyOf r = k := by
  intro r hr he
  have hk : hasKey rs k = true := by
    unfold hasKey
    rw [List.any_eq_true]
    exact ⟨r, hr, by simp [he]⟩
  rw [h] at hk
  exact Bool.false_ne_true hk

lemma nodup_append_single {α : Type} {l : List α} {a : α} (h : l.Nodup) (ha : ¬ a ∈ l) :
    (l ++ [a]).Nodup := by
  rw [List.nodup_append]
  refine ⟨h, List.nodup_singleton a, ?_⟩
  intro x hx hxa
  rw [List.mem_singleton] at hxa
  subst hxa
  exact ha hx

lemma keysNodup_addBlockedScope {rs : List Registry} {ins : List String} {b : String}
    (h : keysNodup rs) : keysNodup (addBlockedScope ins rs b) := by
  unfold addBlockedScope
  split
  next hk =>
    unfold keysNodup
    rw [map_keyOf_map_update _ (keyOf_updB b) rs]
    exact h
  next hk =>
    unfold keysNodup at h ⊢
    rw [List.map_append]
    simp only [List.map_cons, List.map_nil, keyOf_mkEntry]
    refine nodup_append_single h ?_
    intro hmem
    rcases List.mem_map.mp hmem with ⟨r, hr, hrk⟩
    exact hasKey_false_forall (by simpa using hk) r hr hrk

lemma keysNodup_addInsecureScope {rs : List Registry} {blk : List String} {i : String}
    (h : keysNodup rs) : keysNodup (addInsecureScope blk rs i) := by
  unfold addInsecureScope
  split
  next hk =>
    unfold keysNodup
    rw [map_keyOf_map_update _ (keyOf_updI i) rs]
    exact h
  next hk =>
    unfold keysNodup at h ⊢
    rw [List.map_append]
    simp only [List.map_cons, List.map_nil, keyOf_mkEntry]
    refine nodup_append_single h ?_
    intro hmem
    rcases List.mem_map.mp hmem with ⟨r, hr, hrk⟩
    exact hasKey_false_forall (by simpa using hk) r hr hrk

lemma keysNodup_applyBlocked {ins : List String} : ∀ (bs : List String) (rs : List Registry),
    keysNodup rs → keysNodup (applyBlocked ins rs bs) := by
  intro bs
  induction bs with
  | nil => intro rs h; exact h
  | cons b bs ih => intro rs h; exact ih _ (keysNodup_addBlockedScope h)

lemma keysNodup_applyInsecure {blk : List String} : ∀ (il : List String) (rs : List Registry),
    keysNodup rs → keysNodup (applyInsecure blk rs il) := by
  intro il
  induction il with
  | nil => intro rs h; exact h
  | cons i il ih => intro rs h; exact ih _ (keysNodup_addInsecureScope h)

lemma exists_addBlockedScope {P : Registry → Prop} {rs : List Registry} {ins : List String}
    {b : String} (hupd : ∀ r, P r → (keyOf r == b) = true → P { r with blocked := true })
    (h : ∃ r ∈ rs, P r) : ∃ r ∈ addBlockedScope ins rs b, P r := by
  obtain ⟨r, hr, hP⟩ := h
  unfold addBlockedScope
  split
  · refine ⟨if keyOf r == b then { r with blocked := true } else r,
      List.mem_map_of_mem _ hr, ?_⟩
    by_cases hx : (keyOf r == b) = true
    · rw [if_pos hx]; exact hupd r hP hx
    · rw [if_neg hx]; exact hP
  · exact ⟨r, List.mem_append_left _ hr, hP⟩

lemma exists_addInsecureScope {P : Registry → Prop} {rs : List Registry} {blk : List String}
    {i : String} (hupd : ∀ r, P r → (keyOf r == i) = true → P { r with insecure := true })
    (h : ∃ r ∈ rs, P r) : ∃ r ∈ addInsecureScope blk rs i, P r := by
  obtain ⟨r, hr, hP⟩ := h
  unfold addInsecureScope
  split
  · refine ⟨if keyOf r == i then { r with insecure := true } else r,
      List.mem_map_of_mem _ hr, ?_⟩
    by_cases hx : (keyOf r == i) = true
    · rw [if_pos hx]; exact hupd r hP hx
    · rw [if_neg hx]; exact hP
  · exact ⟨r, List.mem_append_left _ hr, hP⟩

lemma exists_applyBlocked {P : Registry → Prop} {ins : List String} :
    ∀ (bs : List String) (rs : List Registry),
    (∀ b ∈ bs, ∀ r, P r → (keyOf r == b) = true → P { r with blocked := true }) →
    (∃ r ∈ rs, P r) → ∃ r ∈ applyBlocked ins rs bs, P r := by
  intro bs
  induction bs with
  | nil => intro rs _ h; exact h
  | cons b bs ih =>
    intro rs hupd h
    exact ih _ (fun c hc => hupd c (List.mem_cons_of_mem _ hc))
      (exists_addBlockedScope (hupd b (List.mem_cons_self _ _)) h)

lemma exists_applyInsecure {P : Registry → Prop} {blk : List String} :
    ∀ (il : List String) (rs : List Registry),
    (∀ i ∈ il, ∀ r, P r → (keyOf r == i) = true → P { r with insecure := true }) →
    (∃ r ∈ rs, P r) → ∃ r ∈ applyInsecure blk rs il, P r := by
  intro il
  induction il with
  | nil => intro rs _ h; exact h
  | cons i il ih =>
    intro rs hupd h
    exact ih _ (fun c hc => hupd c (List.mem_cons_of_mem _ hc))
      (exists_addInsecureScope (hupd i (List.mem_cons_self _ _)) h)

lemma mem_concatAll {α : Type} {x : α} : ∀ {ls : List (List α)},
    x ∈ concatAll ls ↔ ∃ l ∈ ls, x ∈ l := by
  intro ls
  induction ls with
  | nil => simp [concatAll]
  | cons l ls ih =>
    simp only [concatAll, List.mem_append, ih, List.mem_cons]
    constructor
    · rintro (h | ⟨l0, hl0, hx⟩)
      · exact ⟨l, Or.inl rfl, h⟩
      · exact ⟨l0, Or.inr hl0, hx⟩
    · rintro ⟨l0, hl0 | hl0, hx⟩
      · subst hl0; exact Or.inl hx
      · exact Or.inr ⟨l0, hl0, hx⟩

lemma mem_recordDirectives {pm : PullMode} {src m : String} : ∀ {ms : List String}, m ∈ ms →
    ({ source := src, mirror := m, pullMode := pm } : MirrorDirective) ∈
      recordDirectives pm src ms := by
  intro ms
  induction ms with
  | nil => intro h; cases h
  | cons m0 ms ih =>
    intro h
    rcases List.mem_cons.mp h with h1 | h1
    · subst h1; exact List.mem_cons_self _ _
    · exact List.mem_cons_of_mem _ (ih h1)

lemma idms_directive_mem {icsp : List (List IcspRecord)} {idms itms : List (List MirrorSetRecord)}
    {res : List MirrorSetRecord} {r0 : MirrorSetRecord} {m : String}
    (hres : res ∈ idms) (hr0 : r0 ∈ res) (hm : m ∈ r0.mirrors) :
    ({ source := r0.source, mirror := m, pullMode := PullMode.digestOnly } : MirrorDirective) ∈
      normalizeDirectives icsp idms itms := by
  unfold normalizeDirectives
  apply List.mem_append_left
  apply List.mem_append_right
  rw [mem_concatAll]
  refine ⟨recordDirectives PullMode.digestOnly r0.source r0.mirrors, ?_, mem_recordDirectives hm⟩
  apply List.mem_map_of_mem
  rw [mem_concatAll]
  exact ⟨res, hres, hr0⟩

lemma itms_directive_mem {icsp : List (List IcspRecord)} {idms itms : List (List MirrorSetRecord)}
    {res : List MirrorSetRecord} {r0 : MirrorSetRecord} {m : String}
    (hres : res ∈ itms) (hr0 : r0 ∈ res) (hm : m ∈ r0.mirrors) :
    ({ source := r0.source, mirror := m, pullMode := PullMode.tagOnly } : MirrorDirective) ∈
      normalizeDirectives icsp idms itms := by
  unfold normalizeDirectives
  apply List.mem_append_right
  rw [mem_concatAll]
  refine ⟨recordDirectives PullMode.tagOnly r0.source r0.mirrors, ?_, mem_recordDirectives hm⟩
  apply List.mem_map_of_mem
  rw [mem_concatAll]
  exact ⟨res, hres, hr0⟩

lemma source_mem_registrySources {icsp : List (List IcspRecord)}
    {idms itms : List (List MirrorSetRecord)} {d : MirrorDirective}
    (hd : d ∈ normalizeDirectives icsp idms itms) :
    d.source ∈ registrySources icsp idms itms := by
  unfold registrySources
  rw [mem_sortDedup]
  exact List.mem_map_of_mem _ hd

lemma matchesEntry_self {s : String} (hw : strStartsWith s ("*.") = false) :
    matchesEntry s s = true := by
  simp [matchesEntry, hw]

lemma anyMatch_of_mem {c e : String} {l : List String} (he : e ∈ l)
    (h : matchesEntry c e = true) : anyMatch c l = true := by
  unfold anyMatch
  rw [List.any_eq_true]
  exact ⟨e, he, h⟩

lemma mem_currentRecords_idms {idms itms : List (List MirrorSetRecord)}
    {res : List MirrorSetRecord} {r0 : MirrorSetRecord} (hres : res ∈ idms) (hr0 : r0 ∈ res) :
    r0 ∈ currentRecords idms itms :=
  List.mem_append_left _ (mem_concatAll.mpr ⟨res, hres, hr0⟩)

lemma mem_currentRecords_itms {idms itms : List (List MirrorSetRecord)}
    {res : List MirrorSetRecord} {r0 : MirrorSetRecord} (hres : res ∈ itms) (hr0 : r0 ∈ res) :
    r0 ∈ currentRecords idms itms :=
  List.mem_append_right _ (mem_concatAll.mpr ⟨res, hres, hr0⟩)

lemma neverContactOf_eq_true {idms itms : List (List MirrorSetRecord)} {r0 : MirrorSetRecord}
    (hr : r0 ∈ currentRecords idms itms) (hp : r0.mirrorSourcePolicy = SourcePol.neverContact) :
    neverContactOf r0.source idms itms = true := by
  unfold neverContactOf
  rw [List.any_eq_true]
  exact ⟨r0, hr, by simp [hp]⟩


/-! ## Claim theorems: payload-safety resolver -/

/-- Claim C1: for every blocked list, mirror-rule collection and release
image whose repository matches the blocked list via the matches relation,
the payload-safety resolver getValidBlockedAndAllowedRegistries returns an
error when either no mirror directive's source matches the payload's
repository, or the payload's mirrored location under the found (first
matching) directive itself matches an entry of the blocked list —
including the case where a parent of the mirror is blocked. -/
theorem c1_resolver_blocked_error (releaseImg : String) (blockedList : List String)
    (icsp : List (List IcspRecord)) (idms itms : List (List MirrorSetRecord))
    (hblk : anyMatch (stripDigest releaseImg) blockedList = true)
    (hcase :
      (normalizeDirectives icsp idms itms).find?
          (fun d => matchesEntry (stripDigest releaseImg) d.source) = none ∨
      ∃ d, (normalizeDirectives icsp idms itms).find?
          (fun d => matchesEntry (stripDigest releaseImg) d.source) = some d ∧
        anyMatch (payloadMirror d (stripDigest releaseImg)) blockedList = true) :
    (getValidBlockedAndAllowedRegistries releaseImg blockedList icsp idms itms).err.isSome =
      true := by
  rcases hcase with hnone | ⟨d, hfind, hmir⟩
  · simp [getValidBlockedAndAllowedRegistries, hblk, hnone]
  · simp [getValidBlockedAndAllowedRegistries, hblk, hfind, hmir]

/-- Witness for C1 at the repository test input whose payload registry is
blocked and has no matching mirror source. -/
theorem c1_resolver_blocked_error_witness :
    (getValidBlockedAndAllowedRegistries
      ("payload-reg.io/release-image@sha256:4207ba569ff014931f1b5d125fe3751936a768e119546683c899eb09f3cdceb0")
      ["block.io", "payload-reg.io", "block-2.io"]
      [[ { source := "src.io/payload", mirrors := ["mirror-1.io/payload", "mirror-2.io/payload"] } ]]
      [] []).err.isSome = true :=
  c1_resolver_blocked_error _ _ _ _ _ (by decide) (Or.inl (by decide))

/-- Claim C2: when the payload repository matches the blocked list but the
found mirror directive's source matches the payload and the payload's
mirrored location matches no blocked entry, the resolver returns no
error, the blocked list unchanged for both documents, and the singleton
allowed list holding the payload repository. -/
theorem c2_resolver_mirror_escape (releaseImg : String) (blockedList : List String)
    (icsp : List (List IcspRecord)) (idms itms : List (List MirrorSetRecord))
    (d : MirrorDirective)
    (hblk : anyMatch (stripDigest releaseImg) blockedList = true)
    (hfind : (normalizeDirectives icsp idms itms).find?
        (fun d => matchesEntry (stripDigest releaseImg) d.source) = some d)
    (hmir : anyMatch (payloadMirror d (stripDigest releaseImg)) blockedList = false) :
    getValidBlockedAndAllowedRegistries releaseImg blockedList icsp idms itms =
      { registriesBlocked := blockedList, policyBlocked := blockedList,
        allowed := [stripDigest releaseImg], err := none } := by
  simp [getValidBlockedAndAllowedRegistries, hblk, hfind, hmir]

/-- Witness for C2 at the repository test input whose blocked payload
registry carries an unblocked mirror. -/
theorem c2_resolver_mirror_escape_witness :
    getValidBlockedAndAllowedRegistries
      ("payload-reg.io/release-image@sha256:4207ba569ff014931f1b5d125fe3751936a768e119546683c899eb09f3cdceb0")
      ["block.io", "payload-reg.io", "block-2.io"]
      [[ { source := "payload-reg.io/release-image",
           mirrors := ["mirror-1.io/payload", "mirror-2.io/payload"] } ]] [] [] =
      { registriesBlocked := ["block.io", "payload-reg.io", "block-2.io"],
        policyBlocked := ["block.io", "payload-reg.io", "block-2.io"],
        allowed := ["payload-reg.io/release-image"], err := none } :=
  c2_resolver_mirror_escape _ _ _ _ _
    { source := "payload-reg.io/release-image", mirror := "mirror-1.io/payload",
      pullMode := PullMode.digestOnly }
    (by decide) (by decide) (by decide)

/-! ## Claim theorems: identity on the base templates -/

/-- Claim C9: compiling with empty insecure, blocked and allowed lists and
no mirror rules is the identity on both base template documents. -/
theorem c9_empty_inputs_identity (tmplR : V2RegistriesConf) (tmplP : Policy) (img : String) :
    updateRegistriesConfig tmplR [] [] [] [] [] = tmplR ∧
    updatePolicyJSON tmplP [] [] img = Except.ok tmplP := by
  constructor
  · cases tmplR with
    | mk u rs =>
      simp [updateRegistriesConfig, normalizeDirectives, concatAll, registrySources,
        sortDedup, applyBlocked, applyInsecure]
  · cases tmplP with
    | mk dr dk am dd =>
      simp [updatePolicyJSON, rejectScopes, anyMatch]

/-! ## Claim theorems: signature-policy compiler -/

/-- Counterexample to claim C3 as stated: at the repository test "block
payload image" (blocked [block.com], allowed [release-reg.io/image/release]),
the allowed list is non-empty yet the produced document keeps the
inherited AcceptAny default. -/
theorem c3_policy_default_counterexample :
    ((updatePolicyJSON basePolicy ["block.com"] ["release-reg.io/image/release"]
        ("release-reg.io/image/release")).toOption.map
      (fun p => p.defaultReq)) = some Verdict.acceptAny ∧
    (["release-reg.io/image/release"] : List String) ≠ [] := by
  constructor
  · decide
  · decide

/-- Claim C3, amended: for every base policy with default AcceptAny, a
document produced by updatePolicyJSON has default verdict Reject if and
only if the allowed list is non-empty and the blocked list is empty; with
both lists set (the payload-escape configuration of the resolver) and in
the blocked-only case the inherited AcceptAny default is kept. -/
theorem c3_policy_default_verdict (tmpl : Policy) (blk alw : List String) (img : String)
    (p : Policy) (hd : tmpl.defaultReq = Verdict.acceptAny)
    (h : updatePolicyJSON tmpl blk alw img = Except.ok p) :
    (p.defaultReq = Verdict.reject ↔ (alw ≠ [] ∧ blk = [])) := by
  by_cases ha : alw = []
  · simp only [updatePolicyJSON, if_pos ha] at h
    injection h with h2
    subst h2
    simp [hd, ha]
  · by_cases hb : blk = []
    · simp only [updatePolicyJSON, if_neg ha, if_pos hb] at h
      injection h with h2
      subst h2
      simp [ha, hb]
    · by_cases hm : anyMatch (stripDigest img) alw = true
      · simp only [updatePolicyJSON, if_neg ha, if_neg hb, hm, if_true] at h
        injection h with h2
        subst h2
        simp [hd, hb]
      · have hm2 : anyMatch (stripDigest img) alw = false := by
          cases hx : anyMatch (stripDigest img) alw
          · rfl
          · exact absurd hx hm
        simp only [updatePolicyJSON, if_neg ha, if_neg hb, hm2] at h
        exact absurd h (by simp)

/-- Witness for the amended C3 at the repository test with only an allowed
list, where the default becomes Reject. -/
theorem c3_policy_default_verdict_witness :
    (({ defaultReq := Verdict.reject, docker := [("allow.io", Verdict.acceptAny)],
        atomic := [("allow.io", Verdict.acceptAny)],
        dockerDaemon := [("", Verdict.acceptAny)] } : Policy).defaultReq = Verdict.reject ↔
      ((["allow.io"] : List String) ≠ [] ∧ ([] : List String) = [])) :=
  c3_policy_default_verdict basePolicy [] ["allow.io"] ("release-reg.io/image/release") _
    (by decide) rfl

/-- Counterexample to claim C4 as stated: at the repository test "allowed"
(empty blocked list), the allowed list is non-empty and the payload
matches no allowed entry, yet updatePolicyJSON succeeds. -/
theorem c4_policy_error_counterexample :
    isErr (updatePolicyJSON basePolicy [] ["allow.io"] ("release-reg.io/image/release")) =
      false ∧
    (["allow.io"] : List String) ≠ [] ∧
    anyMatch (stripDigest ("release-reg.io/image/release")) ["allow.io"] = false := by
  refine ⟨by decide, by decide, by decide⟩

/-- Claim C4, amended: updatePolicyJSON returns an error — and produces no
output document — exactly when both the allowed and the blocked lists are
non-empty and the payload repository matches no allowed entry; whenever
the payload matches an allowed entry it succeeds. -/
theorem c4_policy_error_iff (tmpl : Policy) (blk alw : List String) (img : String) :
    isErr (updatePolicyJSON tmpl blk alw img) = true ↔
      (alw ≠ [] ∧ blk ≠ [] ∧ anyMatch (stripDigest img) alw = false) := by
  by_cases ha : alw = []
  · simp only [updatePolicyJSON, if_pos ha]
    simp [isErr, ha]
  · by_cases hb : blk = []
    · simp only [updatePolicyJSON, if_neg ha, if_pos hb]
      simp [isErr, hb]
    · by_cases hm : anyMatch (stripDigest img) alw = true
      · simp only [updatePolicyJSON, if_neg ha, if_neg hb, hm, if_true]
        simp [isErr, hm]
      · have hm2 : anyMatch (stripDigest img) alw = false := by
          cases hx : anyMatch (stripDigest img) alw
          · rfl
          · exact absurd hx hm
        simp only [updatePolicyJSON, if_neg ha, if_neg hb, hm2]
        simp [isErr, ha, hb, hm2]

/-! ## Claim theorems: the membership test -/

/-- Counterexample to claim C7 as stated: the mirror
foo.insecure-example.com/bar matches the wildcard entry
*.insecure-example.com (the repository test marks this mirror insecure
under that entry), although the candidate as a whole does not end with
the suffix after the star. -/
theorem c7_matches_counterexample :
    matchesEntry ("foo.insecure-example.com/bar") ("*.insecure-example.com") = true ∧
    ¬ MatchesLiteral ("foo.insecure-example.com/bar") ("*.insecure-example.com") := by
  constructor
  · decide
  · intro h
    rcases h with ⟨h1, h2⟩ | ⟨h1, h2⟩
    · exact absurd h2 (by decide)
    · exact absurd h1 (by decide)

/-- Claim C7, amended: the membership relation shared by both compilers
and the resolver holds exactly when the entry is a wildcard `*.suffix`
and the host part of the candidate (before the first slash) ends with the
suffix, or the entry is exact and the candidate equals it or starts with
it followed by a slash. -/
theorem c7_matches_characterization (c e : String) :
    matchesEntry c e = true ↔ MatchesHostAware c e := by
  by_cases hw : strStartsWith e ("*.") = true
  · simp [matchesEntry, MatchesHostAware, hw]
  · have hw2 : strStartsWith e ("*.") = false := by
      cases hx : strStartsWith e ("*.")
      · rfl
      · exact absurd hx hw
    simp [matchesEntry, MatchesHostAware, hw2]


/-! ## Claim theorems: registry-mirror compiler -/

lemma keyOf_mkSourceEntry (s : String) (dirs : List MirrorDirective)
    (ins blk : List String) (nc : Bool) : keyOf (mkSourceEntry s dirs ins blk nc) = s := by
  unfold mkSourceEntry
  exact keyOf_mkEntry _ _ _ _

lemma blocked_mkEntry (k : String) (ins blk : Bool) (ms : List MirrorEndpoint) :
    (mkEntry k ins blk ms).blocked = blk := by
  unfold mkEntry
  split <;> rfl

lemma insecure_mkEntry (k : String) (ins blk : Bool) (ms : List MirrorEndpoint) :
    (mkEntry k ins blk ms).insecure = ins := by
  unfold mkEntry
  split <;> rfl

lemma mirrors_mkEntry (k : String) (ins blk : Bool) (ms : List MirrorEndpoint) :
    (mkEntry k ins blk ms).mirrors = ms := by
  unfold mkEntry
  split <;> rfl

lemma map_keyOf_of_section {g : String → Registry} (hg : ∀ s, keyOf (g s) = s) :
    ∀ srcs : List String, (srcs.map g).map keyOf = srcs := by
  intro srcs
  induction srcs with
  | nil => rfl
  | cons s ss ih => simp [hg, ih]

/-- Claim C8: in every document the registry-mirror compiler produces from
a base template without registry entries, no two entries share the same
location-or-wildcard key; and at the repository scenario with common.com
in both the blocked and the insecure lists, common.com appears exactly
once, carrying both flags. -/
theorem c8_entry_keys_unique (tmpl : V2RegistriesConf) (insecureList blockedList : List String)
    (icsp : List (List IcspRecord)) (idms itms : List (List MirrorSetRecord))
    (htmpl : tmpl.registries = []) :
    keysNodup (updateRegistriesConfig tmpl insecureList blockedList icsp idms itms).registries ∧
    (updateRegistriesConfig templateConfig
        ["registry.access.redhat.com", "insecure.com", "common.com"]
        ["blocked.com", "common.com", "docker.io"] [] [] []).registries.filter
        (fun r => keyOf r == ("common.com")) =
      [{ wildcard := "", location := "common.com", insecure := true, blocked := true,
         mirrors := [] }] := by
  constructor
  · simp only [updateRegistriesConfig]
    apply keysNodup_applyInsecure
    apply keysNodup_applyBlocked
    rw [htmpl]
    unfold keysNodup
    rw [List.nil_append]
    rw [map_keyOf_of_section (fun s => keyOf_mkSourceEntry s _ _ _ _)]
    exact nodup_sortDedup _
  · decide

/-- Witness for C8 at the repository scenario input. -/
theorem c8_entry_keys_unique_witness :
    keysNodup (updateRegistriesConfig templateConfig
      ["registry.access.redhat.com", "insecure.com", "common.com"]
      ["blocked.com", "common.com", "docker.io"] [] [] []).registries ∧
    (updateRegistriesConfig templateConfig
        ["registry.access.redhat.com", "insecure.com", "common.com"]
        ["blocked.com", "common.com", "docker.io"] [] [] []).registries.filter
        (fun r => keyOf r == ("common.com")) =
      [{ wildcard := "", location := "common.com", insecure := true, blocked := true,
         mirrors := [] }] :=
  c8_entry_keys_unique templateConfig
    ["registry.access.redhat.com", "insecure.com", "common.com"]
    ["blocked.com", "common.com", "docker.io"] [] [] [] rfl

/-- Claim C10: every mirror-rule record with exclusivity NeverContact
yields a registry entry for its source with blocked set, independently of
the blocked list. -/
theorem c10_neverContact_blocks_source (tmpl : V2RegistriesConf)
    (insecureList blockedList : List String) (icsp : List (List IcspRecord))
    (idms itms : List (List MirrorSetRecord)) (res : List MirrorSetRecord)
    (r0 : MirrorSetRecord)
    (hres : res ∈ idms ∨ res ∈ itms) (hr0 : r0 ∈ res)
    (hpol : r0.mirrorSourcePolicy = SourcePol.neverContact)
    (hm : r0.mirrors ≠ []) (htmpl : tmpl.registries = []) :
    ∃ r ∈ (updateRegistriesConfig tmpl insecureList blockedList icsp idms itms).registries,
      keyOf r = r0.source ∧ r.blocked = true := by
  have hsrc : r0.source ∈ registrySources icsp idms itms := by
    cases hm2 : r0.mirrors with
    | nil => exact absurd hm2 hm
    | cons m0 ms =>
      have hmm : m0 ∈ r0.mirrors := by
        rw [hm2]
        exact List.mem_cons_self _ _
      rcases hres with hL | hR
      · exact source_mem_registrySources (idms_directive_mem hL hr0 hmm)
      · exact source_mem_registrySources (itms_directive_mem hR hr0 hmm)
  have hnc : neverContactOf r0.source idms itms = true := by
    rcases hres with hL | hR
    · exact neverContactOf_eq_true (mem_currentRecords_idms hL hr0) hpol
    · exact neverContactOf_eq_true (mem_currentRecords_itms hR hr0) hpol
  simp only [updateRegistriesConfig]
  apply exists_applyInsecure _ _ (fun i _ r hP _ => ⟨hP.1, hP.2⟩)
  apply exists_applyBlocked _ _ (fun b _ r hP _ => ⟨hP.1, rfl⟩)
  refine ⟨mkSourceEntry r0.source (normalizeDirectives icsp idms itms) insecureList blockedList
      (neverContactOf r0.source idms itms), ?_, ?_, ?_⟩
  · rw [htmpl, List.nil_append]
    exact List.mem_map_of_mem _ hsrc
  · exact keyOf_mkSourceEntry _ _ _ _ _
  · unfold mkSourceEntry
    rw [blocked_mkEntry, hnc, Bool.or_true]

/-- Witness for C10: the NeverContact digest-scoped record of the
repository test yields a blocked entry though the blocked list is empty. -/
theorem c10_neverContact_blocks_source_witness :
    ∃ r ∈ (updateRegistriesConfig templateConfig [] [] []
        [[ { source := "registry-a.com/ns-a", mirrors := ["mirror-a-1.com/ns-a"],
             mirrorSourcePolicy := SourcePol.neverContact } ]] []).registries,
      keyOf r = ("registry-a.com/ns-a") ∧
      r.blocked = true :=
  c10_neverContact_blocks_source templateConfig [] [] []
    [[ { source := "registry-a.com/ns-a", mirrors := ["mirror-a-1.com/ns-a"],
         mirrorSourcePolicy := SourcePol.neverContact } ]] []
    [ { source := "registry-a.com/ns-a", mirrors := ["mirror-a-1.com/ns-a"],
        mirrorSourcePolicy := SourcePol.neverContact } ]
    { source := "registry-a.com/ns-a", mirrors := ["mirror-a-1.com/ns-a"],
      mirrorSourcePolicy := SourcePol.neverContact }
    (Or.inl (by decide)) (by decide) rfl (by decide) rfl

/-- Counterexample to claim C5 as stated: the NeverContact record of the
repository test yields an entry with blocked true although its source
matches no entry of the empty blocked list. -/
theorem c5_source_entry_flags_counterexample :
    (updateRegistriesConfig templateConfig [] [] []
        [[ { source := "registry-a.com/ns-a", mirrors := ["mirror-a-1.com/ns-a"],
             mirrorSourcePolicy := SourcePol.neverContact } ]] []).registries =
      [ { wildcard := "", location := "registry-a.com/ns-a", insecure := false, blocked := true,
          mirrors := [{ location := "mirror-a-1.com/ns-a", insecure := false,
                        pullFromMirror := PullMode.digestOnly }] } ] ∧
    anyMatch ("registry-a.com/ns-a") ([] : List String) = false := by
  constructor
  · decide
  · decide

/-- Claim C5, amended: for every distinct non-wildcard source of the
mirror-rule sets, the entry emitted for it has blocked equal to
matches(source, blockedList) or-ed with the source carrying a
NeverContact declaration, insecure equal to matches(source, insecureList),
and every one of its mirror endpoints carries insecure equal to
matches(mirror, insecureList), independently of the source's own flags. -/
theorem c5_source_entry_flags (tmpl : V2RegistriesConf)
    (insecureList blockedList : List String) (icsp : List (List IcspRecord))
    (idms itms : List (List MirrorSetRecord)) (s : String)
    (hs : s ∈ registrySources icsp idms itms)
    (hw : strStartsWith s ("*.") = false)
    (htmpl : tmpl.registries = []) :
    ∃ r ∈ (updateRegistriesConfig tmpl insecureList blockedList icsp idms itms).registries,
      keyOf r = s ∧
      r.blocked = (anyMatch s blockedList || neverContactOf s idms itms) ∧
      r.insecure = anyMatch s insecureList ∧
      ∀ m ∈ r.mirrors, m.insecure = anyMatch m.location insecureList := by
  simp only [updateRegistriesConfig]
  apply exists_applyInsecure _ _ ?updI
  case updI =>
    intro i hi r hP hk
    have hsi : s = i := by
      rw [← hP.1]
      exact eq_of_beq hk
    have hmm : anyMatch s insecureList = true :=
      anyMatch_of_mem (by rw [hsi]; exact hi) (matchesEntry_self hw)
    exact ⟨hP.1, hP.2.1, by rw [hmm], hP.2.2.2⟩
  apply exists_applyBlocked _ _ ?updB
  case updB =>
    intro b hb r hP hk
    have hsb : s = b := by
      rw [← hP.1]
      exact eq_of_beq hk
    have hmm : anyMatch s blockedList = true :=
      anyMatch_of_mem (by rw [hsb]; exact hb) (matchesEntry_self hw)
    refine ⟨hP.1, ?_, hP.2.2.1, hP.2.2.2⟩
    rw [hmm, Bool.true_or]
  refine ⟨mkSourceEntry s (normalizeDirectives icsp idms itms) insecureList blockedList
      (neverContactOf s idms itms), ?_, ?_, ?_, ?_, ?_⟩
  · rw [htmpl, List.nil_append]
    exact List.mem_map_of_mem _ hs
  · exact keyOf_mkSourceEntry _ _ _ _ _
  · unfold mkSourceEntry
    rw [blocked_mkEntry]
  · unfold mkSourceEntry
    rw [insecure_mkEntry]
  · intro m hmem
    unfold mkSourceEntry at hmem
    rw [mirrors_mkEntry] at hmem
    rcases List.mem_map.mp hmem with ⟨d, hd, he⟩
    rw [← he]

/-- Witness for the amended C5 at a NeverContact record whose mirror is in
the insecure list. -/
theorem c5_source_entry_flags_witness :
    ∃ r ∈ (updateRegistriesConfig templateConfig ["mirror-a-1.com/ns-a"] [] []
        [[ { source := "registry-a.com/ns-a", mirrors := ["mirror-a-1.com/ns-a"],
             mirrorSourcePolicy := SourcePol.neverContact } ]] []).registries,
      keyOf r = ("registry-a.com/ns-a") ∧
      r.blocked = (anyMatch ("registry-a.com/ns-a") [] ||
        neverContactOf ("registry-a.com/ns-a")
          [[ { source := "registry-a.com/ns-a", mirrors := ["mirror-a-1.com/ns-a"],
               mirrorSourcePolicy := SourcePol.neverContact } ]] []) ∧
      r.insecure = anyMatch ("registry-a.com/ns-a") ["mirror-a-1.com/ns-a"] ∧
      ∀ m ∈ r.mirrors, m.insecure = anyMatch m.location ["mirror-a-1.com/ns-a"] :=
  c5_source_entry_flags templateConfig ["mirror-a-1.com/ns-a"] [] []
    [[ { source := "registry-a.com/ns-a", mirrors := ["mirror-a-1.com/ns-a"],
         mirrorSourcePolicy := SourcePol.neverContact } ]] []
    ("registry-a.com/ns-a") (by decide) (by decide) rfl


/-! ## Claim theorems: conflict validator -/

lemma consistent_cons {r : MirrorSetRecord} {rest : List MirrorSetRecord} :
    ConsistentPolicies (r :: rest) ↔
      (ConsistentPolicies rest ∧
       ∀ r2 ∈ rest, r2.source = r.source → r.mirrorSourcePolicy ≠ SourcePol.unset →
         r2.mirrorSourcePolicy ≠ SourcePol.unset →
         r2.mirrorSourcePolicy = r.mirrorSourcePolicy) := by
  constructor
  · intro h
    constructor
    · intro r1 h1 r2 h2 hs hp1 hp2
      exact h r1 (List.mem_cons_of_mem _ h1) r2 (List.mem_cons_of_mem _ h2) hs hp1 hp2
    · intro r2 h2 hs hpr hp2
      exact h r2 (List.mem_cons_of_mem _ h2) r (List.mem_cons_self _ _) hs hp2 hpr
  · rintro ⟨hC, hR⟩ r1 h1 r2 h2 hs hp1 hp2
    rcases List.mem_cons.mp h1 with e1 | e1 <;> rcases List.mem_cons.mp h2 with e2 | e2
    · subst e1; subst e2; rfl
    · subst e1
      exact (hR r2 e2 hs.symm hp1 hp2).symm
    · subst e2
      exact hR r1 e1 hs hp2 hp1
    · exact hC r1 e1 r2 e2 hs hp1 hp2

lemma accCompat_cons {acc : List (String × SourcePol)} {r : MirrorSetRecord}
    {rest : List MirrorSetRecord} :
    AccCompat acc (r :: rest) ↔
      (AccCompat acc rest ∧
       (r.mirrorSourcePolicy ≠ SourcePol.unset →
         ∀ p, polLookup acc r.source = some p → p = r.mirrorSourcePolicy)) := by
  constructor
  · intro h
    exact ⟨fun r2 h2 => h r2 (List.mem_cons_of_mem _ h2), h r (List.mem_cons_self _ _)⟩
  · rintro ⟨hA, hr⟩ r2 h2
    rcases List.mem_cons.mp h2 with e2 | e2
    · subst e2; exact hr
    · exact hA r2 e2

lemma consistent_cons_unset {r : MirrorSetRecord} {rest : List MirrorSetRecord}
    (hu : r.mirrorSourcePolicy = SourcePol.unset) :
    ConsistentPolicies (r :: rest) ↔ ConsistentPolicies rest := by
  rw [consistent_cons]
  constructor
  · exact fun h => h.1
  · intro h
    refine ⟨h, ?_⟩
    intro r2 _ _ hpr
    exact absurd hu hpr

lemma accCompat_cons_unset {acc : List (String × SourcePol)} {r : MirrorSetRecord}
    {rest : List MirrorSetRecord} (hu : r.mirrorSourcePolicy = SourcePol.unset) :
    AccCompat acc (r :: rest) ↔ AccCompat acc rest := by
  rw [accCompat_cons]
  constructor
  · exact fun h => h.1
  · intro h
    exact ⟨h, fun hpr => absurd hu hpr⟩

lemma polLookup_cons (t : String) (q : SourcePol) (acc : List (String × SourcePol))
    (s : String) :
    polLookup ((t, q) :: acc) s = if t = s then some q else polLookup acc s := rfl

lemma accCompat_extend_none {acc : List (String × SourcePol)} {r : MirrorSetRecord}
    {rest : List MirrorSetRecord} (hl : polLookup acc r.source = none) :
    AccCompat ((r.source, r.mirrorSourcePolicy) :: acc) rest ↔
      (AccCompat acc rest ∧
       ∀ r2 ∈ rest, r2.source = r.source → r2.mirrorSourcePolicy ≠ SourcePol.unset →
         r2.mirrorSourcePolicy = r.mirrorSourcePolicy) := by
  constructor
  · intro h
    constructor
    · intro r2 h2 hp2 p hp
      by_cases hsrc : r.source = r2.source
      · rw [← hsrc, hl] at hp
        exact Option.noConfusion hp
      · apply h r2 h2 hp2 p
        rw [polLookup_cons, if_neg hsrc]
        exact hp
    · intro r2 h2 hs hp2
      have hlk : polLookup ((r.source, r.mirrorSourcePolicy) :: acc) r2.source =
          some r.mirrorSourcePolicy := by
        rw [polLookup_cons, if_pos hs.symm]
      exact (h r2 h2 hp2 r.mirrorSourcePolicy hlk).symm
  · rintro ⟨hA, hR⟩ r2 h2 hp2 p hp
    rw [polLookup_cons] at hp
    by_cases hsrc : r.source = r2.source
    · rw [if_pos hsrc] at hp
      have hp2e : p = r.mirrorSourcePolicy := (Option.some.inj hp).symm
      rw [hp2e]
      exact (hR r2 h2 hsrc.symm hp2).symm
    · rw [if_neg hsrc] at hp
      exact hA r2 h2 hp2 p hp

lemma optElimNone {α β : Type} (b : β) (f : α → β) : (none : Option α).elim b f = b := rfl

lemma optElimSome {α β : Type} (a : α) (b : β) (f : α → β) : (some a).elim b f = f a := rfl

lemma checkConflicts_cons (acc : List (String × SourcePol)) (r : MirrorSetRecord)
    (rest : List MirrorSetRecord) :
    checkConflicts acc (r :: rest) =
      (if r.mirrorSourcePolicy = SourcePol.unset then checkConflicts acc rest
       else
         (polLookup acc r.source).elim
           (checkConflicts ((r.source, r.mirrorSourcePolicy) :: acc) rest)
           (fun p =>
             if p = r.mirrorSourcePolicy then checkConflicts acc rest
             else some (ValidationError.conflictingPolicy r.source))) := rfl

lemma checkConflicts_none_iff : ∀ (l : List MirrorSetRecord) (acc : List (String × SourcePol)),
    (checkConflicts acc l = none ↔ (ConsistentPolicies l ∧ AccCompat acc l)) := by
  intro l
  induction l with
  | nil =>
    intro acc
    constructor
    · intro _
      constructor
      · intro r1 h1
        exact absurd h1 (List.not_mem_nil _)
      · intro r h
        exact absurd h (List.not_mem_nil _)
    · intro _
      rfl
  | cons r rest ih =>
    intro acc
    rw [checkConflicts_cons]
    by_cases hu : r.mirrorSourcePolicy = SourcePol.unset
    · rw [if_pos hu, ih, consistent_cons_unset hu, accCompat_cons_unset hu]
    · rw [if_neg hu]
      cases hl : polLookup acc r.source with
      | none =>
        simp only [optElimNone]
        rw [ih, accCompat_extend_none hl, consistent_cons, accCompat_cons]
        constructor
        · rintro ⟨hC, hA, hP⟩
          refine ⟨⟨hC, fun r2 h2 hs _ hp2 => hP r2 h2 hs hp2⟩, hA, ?_⟩
          intro _ p hp
          rw [hl] at hp
          exact Option.noConfusion hp
        · rintro ⟨⟨hC, hP⟩, hA, _⟩
          exact ⟨hC, hA, fun r2 h2 hs hp2 => hP r2 h2 hs hu hp2⟩
      | some p =>
        simp only [optElimSome]
        by_cases hp : p = r.mirrorSourcePolicy
        · rw [if_pos hp, ih]
          subst hp
          rw [consistent_cons, accCompat_cons]
          constructor
          · rintro ⟨hC, hA⟩
            refine ⟨⟨hC, ?_⟩, hA, ?_⟩
            · intro r2 h2 hs _ hp2
              have hlk : polLookup acc r2.source = some r.mirrorSourcePolicy := by
                rw [hs]
                exact hl
              exact (hA r2 h2 hp2 r.mirrorSourcePolicy hlk).symm
            · intro _ p0 hp0
              rw [hl] at hp0
              exact (Option.some.inj hp0).symm
          · rintro ⟨⟨hC, _⟩, hA, _⟩
            exact ⟨hC, hA⟩
        · rw [if_neg hp]
          constructor
          · intro habs
            exact absurd habs (by simp)
          · rintro ⟨_, hA2⟩
            rw [accCompat_cons] at hA2
            exact absurd (hA2.2 hu p hl) hp

lemma polLookup_mem : ∀ {acc : List (String × SourcePol)} {s : String} {p : SourcePol},
    polLookup acc s = some p → (s, p) ∈ acc := by
  intro acc
  induction acc with
  | nil =>
    intro s p h
    exact Option.noConfusion h
  | cons tq rest ih =>
    intro s p h
    cases tq with
    | mk t q =>
      rw [polLookup_cons] at h
      by_cases ht : t = s
      · rw [if_pos ht] at h
        subst ht
        have hq : q = p := Option.some.inj h
        subst hq
        exact List.mem_cons_self _ _
      · rw [if_neg ht] at h
        exact List.mem_cons_of_mem _ (ih h)

lemma checkConflicts_some_conflict :
    ∀ (l : List MirrorSetRecord) (acc : List (String × SourcePol))
      (orig : List MirrorSetRecord), (∀ r ∈ l, r ∈ orig) →
      (∀ sp ∈ acc, ∃ r0 ∈ orig, r0.source = sp.1 ∧ r0.mirrorSourcePolicy = sp.2 ∧
        sp.2 ≠ SourcePol.unset) →
      ∀ e : ValidationError, checkConflicts acc l = some e →
      ∃ s, e = ValidationError.conflictingPolicy s ∧
        ∃ r1 ∈ orig, ∃ r2 ∈ orig, r1.source = s ∧ r2.source = s ∧
          r1.mirrorSourcePolicy ≠ SourcePol.unset ∧ r2.mirrorSourcePolicy ≠ SourcePol.unset ∧
          r1.mirrorSourcePolicy ≠ r2.mirrorSourcePolicy := by
  intro l
  induction l with
  | nil =>
    intro acc orig _ _ e h
    exact Option.noConfusion h
  | cons r rest ih =>
    intro acc orig hsub hacc e h
    rw [checkConflicts_cons] at h
    by_cases hu : r.mirrorSourcePolicy = SourcePol.unset
    · rw [if_pos hu] at h
      exact ih acc orig (fun x hx => hsub x (List.mem_cons_of_mem _ hx)) hacc e h
    · rw [if_neg hu] at h
      cases hl : polLookup acc r.source with
      | none =>
        rw [hl, optElimNone] at h
        apply ih ((r.source, r.mirrorSourcePolicy) :: acc) orig
          (fun x hx => hsub x (List.mem_cons_of_mem _ hx)) ?_ e h
        intro sp hsp
        rcases List.mem_cons.mp hsp with e1 | e1
        · subst e1
          exact ⟨r, hsub r (List.mem_cons_self _ _), rfl, rfl, hu⟩
        · exact hacc sp e1
      | some p =>
        rw [hl] at h
        simp only [optElimSome] at h
        by_cases hp : p = r.mirrorSourcePolicy
        · rw [if_pos hp] at h
          exact ih acc orig (fun x hx => hsub x (List.mem_cons_of_mem _ hx)) hacc e h
        · rw [if_neg hp] at h
          have he : e = ValidationError.conflictingPolicy r.source := (Option.some.inj h).symm
          obtain ⟨r0, hr0, hr0s, hr0p, hr0u⟩ := hacc (r.source, p) (polLookup_mem hl)
          refine ⟨r.source, he, r0, hr0, r, hsub r (List.mem_cons_self _ _), hr0s, rfl, ?_, hu, ?_⟩
          · rw [hr0p]
            exact hr0u
          · rw [hr0p]
            exact hp

lemma validate_eq_checkConflicts {insecure blocked allowed : List String}
    {icsp : List (List IcspRecord)} {idms itms : List (List MirrorSetRecord)}
    (h : structuralChecksPass insecure blocked allowed icsp idms itms = true) :
    validateRegistriesConfScopes insecure blocked allowed icsp idms itms =
      checkConflicts [] (currentRecords idms itms) := by
  unfold structuralChecksPass at h
  simp only [Bool.and_eq_true, Bool.not_eq_true'] at h
  obtain ⟨⟨⟨⟨⟨h1, h2⟩, h3⟩, h4⟩, h5⟩, h6⟩ := h
  have h7 : selfMirrorErr idms itms = none := by
    cases hx : selfMirrorErr idms itms
    · rfl
    · rw [hx] at h6
      exact Bool.noConfusion h6
  simp [validateRegistriesConfScopes, h1, h2, h3, h4, h5, h7]

/-- Claim C6: under the structural checks, the validator accepts exactly
the rule sets whose non-Unset exclusivity declarations are consistent per
source (records with Unset never conflict), and any error it reports is
the conflicting-policy error naming a source that two current-form
records genuinely assign different non-Unset exclusivities. -/
theorem c6_conflicting_policy (insecure blocked allowed : List String)
    (icsp : List (List IcspRecord)) (idms itms : List (List MirrorSetRecord))
    (hstruct : structuralChecksPass insecure blocked allowed icsp idms itms = true) :
    (validateRegistriesConfScopes insecure blocked allowed icsp idms itms = none ↔
      ConsistentPolicies (currentRecords idms itms)) ∧
    (∀ e, validateRegistriesConfScopes insecure blocked allowed icsp idms itms = some e →
      ∃ s, e = ValidationError.conflictingPolicy s ∧
        ∃ r1 ∈ currentRecords idms itms, ∃ r2 ∈ currentRecords idms itms,
          r1.source = s ∧ r2.source = s ∧
          r1.mirrorSourcePolicy ≠ SourcePol.unset ∧ r2.mirrorSourcePolicy ≠ SourcePol.unset ∧
          r1.mirrorSourcePolicy ≠ r2.mirrorSourcePolicy) := by
  rw [validate_eq_checkConflicts hstruct]
  constructor
  · rw [checkConflicts_none_iff]
    constructor
    · exact fun h => h.1
    · intro h
      refine ⟨h, ?_⟩
      intro r _ _ p hlp
      exact Option.noConfusion hlp
  · intro e he
    exact checkConflicts_some_conflict (currentRecords idms itms) [] (currentRecords idms itms)
      (fun x hx => hx) (fun sp hsp => absurd hsp (List.not_mem_nil _)) e he

/-- Witness for C6 at the consistent idms and itms configuration of the
repository test (first resource NeverContact for registry-a, second Unset;
tag-scoped resource Unset for registry-a and NeverContact for registry-b). -/
theorem c6_conflicting_policy_witness :
    (validateRegistriesConfScopes ["*.insecure.com"] ["*.block.com"] ["*.allowed.com"] []
        [[ { source := "registry-a.com/ns-a", mirrors := ["mirror-a-1.com/ns-a"],
             mirrorSourcePolicy := SourcePol.neverContact },
           { source := "registry-b/ns-b/ns1-b", mirrors := ["mirror-b-1.com/ns-b"],
             mirrorSourcePolicy := SourcePol.unset } ]]
        [[ { source := "registry-a.com/ns-a", mirrors := ["mirror-d-1.com/ns-d"],
             mirrorSourcePolicy := SourcePol.unset },
           { source := "registry-b/ns-b/ns1-b", mirrors := ["mirror-c-1.com/ns-c"],
             mirrorSourcePolicy := SourcePol.neverContact } ]] = none ↔
      ConsistentPolicies (currentRecords
        [[ { source := "registry-a.com/ns-a", mirrors := ["mirror-a-1.com/ns-a"],
             mirrorSourcePolicy := SourcePol.neverContact },
           { source := "registry-b/ns-b/ns1-b", mirrors := ["mirror-b-1.com/ns-b"],
             mirrorSourcePolicy := SourcePol.unset } ]]
        [[ { source := "registry-a.com/ns-a", mirrors := ["mirror-d-1.com/ns-d"],
             mirrorSourcePolicy := SourcePol.unset },
           { source := "registry-b/ns-b/ns1-b", mirrors := ["mirror-c-1.com/ns-c"],
             mirrorSourcePolicy := SourcePol.neverContact } ]])) :=
  (c6_conflicting_policy ["*.insecure.com"] ["*.block.com"] ["*.allowed.com"] []
    [[ { source := "registry-a.com/ns-a", mirrors := ["mirror-a-1.com/ns-a"],
         mirrorSourcePolicy := SourcePol.neverContact },
       { source := "registry-b/ns-b/ns1-b", mirrors := ["mirror-b-1.com/ns-b"],
         mirrorSourcePolicy := SourcePol.unset } ]]
    [[ { source := "registry-a.com/ns-a", mirrors := ["mirror-d-1.com/ns-d"],
         mirrorSourcePolicy := SourcePol.unset },
       { source := "registry-b/ns-b/ns1-b", mirrors := ["mirror-c-1.com/ns-c"],
         mirrorSourcePolicy := SourcePol.neverContact } ]] (by decide)).1

end MCO
